import Mathlib

/-!
Verification of the client-side-buffer lifetime-fixup tool
(patrace, src/patrace/src/tool/clientsidetrim.cpp) against its
natural-language specification.

The tool makes two passes over a trace file: a first (analyzer) pass that
drains the source to harvest a per-thread map from client-side-buffer id to
the ordinal of its last use, and a second (rewriter) pass that copies every
call record to the output, injecting a synthetic
`glDeleteClientSideBuffer` record immediately after each record whose
ordinal is a key of the flattened liveness map.

This file shallowly embeds the observable behaviour of `main` and its
helpers: call records become a Lean structure, the `std::map<int,int>`
flattening loop becomes a fold that overwrites on key collision, the while
loop of the rewriter becomes a recursive function producing the list of
written records, and the whole of `main` becomes a function from an
environment (arguments, open outcomes, source contents) to the observable
result (exit code, stdout, stderr, sink events, source-open
configurations).
-/

/-- Embedding of `common::ValueTM` as used by this tool: the only value the
tool ever constructs itself is a single integer argument; arguments of
original records are carried around opaquely. -/
structure ValueTM where
  intVal : Int
deriving DecidableEq

/-- Embedding of `common::CallTM`: name, global call ordinal (`mCallNo`),
thread id (`mTid`) and argument list (`mArgs`). -/
structure CallTM where
  name : String
  mCallNo : Int
  mTid : Int
  mArgs : List ValueTM
deriving DecidableEq

/-- The synthetic deletion record built at clientsidetrim.cpp lines
144-146: `CallTM deletion("glDeleteClientSideBuffer")`, one integer
argument (the buffer id), and `mTid` copied from the triggering call.  The
ordinal of a freshly constructed record is not meaningful and is not
persisted; it is fixed to 0 here. -/
def deletionCall (bufId tid : Int) : CallTM :=
  { name := "glDeleteClientSideBuffer", mCallNo := 0, mTid := tid,
    mArgs := [ValueTM.mk bufId] }

/-- One insertion `callno_to_client_side_last_use[pair.second] = pair.first`
(line 134): the map, viewed as a lookup function, is updated at key
`pair.second` (the call number) with value `pair.first` (the buffer id),
overwriting any earlier binding. -/
def insertOrdinal (acc : Int → Option Int) (pair : Int × Int) : Int → Option Int :=
  fun k => if k = pair.2 then some pair.1 else acc k

/-- Embedding of the flattening loop at lines 128-137: iterate every thread
of `client_side_last_use` and every (buffer id, call number) pair of that
thread, inserting call number → buffer id into `callno_to_client_side_last_use`.
Threads and per-thread entries are given as lists in iteration order. -/
def flattenLastUse (lastUse : List (Int × List (Int × Int))) : Int → Option Int :=
  lastUse.foldl (fun acc thread => thread.2.foldl insertOrdinal acc)
    (fun _ => none)

/-- All (buffer id, call number) pairs of the per-thread last-use structure,
concatenated in iteration order. -/
def entriesOf : List (Int × List (Int × Int)) → List (Int × Int)
  | [] => []
  | t :: rest => t.2 ++ entriesOf rest

/-- The records written for one source record in the rewriter loop (lines
139-150): the record itself, then, when its call number is a key of the
flattened map, the synthetic deletion for the mapped buffer id on the same
thread.  The boolean tags the write site: `false` for the verbatim copy at
line 141, `true` for the synthetic deletion at line 147. -/
def rewriteStep (m : Int → Option Int) (c : CallTM) : List (Bool × CallTM) :=
  (false, c) ::
    (match m c.mCallNo with
     | some buf => [(true, deletionCall buf c.mTid)]
     | none => [])

/-- Embedding of the whole rewriter while loop: the sequence of records
written to the output file, in order, for a given flattened liveness map
and source record sequence. -/
def rewritePass (m : Int → Option Int) : List CallTM → List (Bool × CallTM)
  | [] => []
  | c :: rest => rewriteStep m c ++ rewritePass m rest

/-- The `count` variable of the rewriter loop: incremented once per
injected deletion. -/
def injectedTotal (m : Int → Option Int) : List CallTM → Nat
  | [] => 0
  | c :: rest => (if (m c.mCallNo).isSome then 1 else 0) + injectedTotal m rest

theorem foldl_insertOrdinal (l : List (Int × Int)) (acc : Int → Option Int) (k : Int) :
    (l.foldl insertOrdinal acc) k =
      l.foldl (fun r p => if k = p.2 then some p.1 else r) (acc k) := by
  induction l generalizing acc with
  | nil => rfl
  | cons p t ih =>
      simp only [List.foldl_cons]
      rw [ih]
      rfl

theorem flatten_foldl_entries (lastUse : List (Int × List (Int × Int)))
    (acc : Int → Option Int) (k : Int) :
    (lastUse.foldl (fun a t => t.2.foldl insertOrdinal a) acc) k =
      (entriesOf lastUse).foldl (fun r p => if k = p.2 then some p.1 else r) (acc k) := by
  induction lastUse generalizing acc with
  | nil => rfl
  | cons t rest ih =>
      simp only [List.foldl_cons, entriesOf, List.foldl_append]
      rw [ih, foldl_insertOrdinal]

theorem foldl_pick_no_match : ∀ (post : List (Int × Int)) (k : Int) (init : Option Int),
    (∀ q ∈ post, q.2 ≠ k) →
    post.foldl (fun r p => if k = p.2 then some p.1 else r) init = init
  | [], _, _, _ => rfl
  | q :: t, k, init, h => by
      have hq : ¬ (k = q.2) := fun hk => h q (List.mem_cons_self _ _) hk.symm
      simp only [List.foldl_cons, if_neg hq]
      exact foldl_pick_no_match t k init (fun p hp => h p (List.mem_cons_of_mem _ hp))

/-- C1: a record `r` of the second pass whose ordinal is a key of the
flattened liveness map is followed, immediately and before the next source
record, by exactly one synthetic deletion record; that record is named
`glDeleteClientSideBuffer` and carries exactly one integer argument, the
buffer id the map associates with the ordinal of `r`. -/
theorem injection_immediately_after_trigger (m : Int → Option Int)
    (r : CallTM) (rest : List CallTM) (b : Int)
    (h : m r.mCallNo = some b) :
    rewritePass m (r :: rest) =
      (false, r) :: (true, deletionCall b r.mTid) :: rewritePass m rest ∧
    (deletionCall b r.mTid).name = "glDeleteClientSideBuffer" ∧
    (deletionCall b r.mTid).mArgs = [ValueTM.mk b] := by
  refine ⟨?_, rfl, rfl⟩
  simp only [rewritePass, rewriteStep, h]
  rfl

/-- Witness for C1: the map sends ordinal 3 to buffer 7, and the two-record
stream gets exactly one deletion injected right after the record with
ordinal 3. -/
theorem injection_immediately_after_trigger_witness :
    rewritePass (fun k => if k = (3 : Int) then some 7 else none)
        [CallTM.mk "glDrawArrays" 3 0 [], CallTM.mk "glFlush" 4 0 []] =
      [(false, CallTM.mk "glDrawArrays" 3 0 []),
       (true, deletionCall 7 0),
       (false, CallTM.mk "glFlush" 4 0 [])] := by
  have h := (injection_immediately_after_trigger
      (fun k => if k = (3 : Int) then some 7 else none)
      (CallTM.mk "glDrawArrays" 3 0 []) [CallTM.mk "glFlush" 4 0 []] 7 (by decide)).1
  rw [h]
  rfl

/-- C2: removing the synthetic deletions (the writes tagged `true`) from
the output of the rewriter pass reproduces the input record sequence
exactly: same records, unmodified, in the same order, none dropped. -/
theorem non_interference_round_trip (m : Int → Option Int) (calls : List CallTM) :
    ((rewritePass m calls).filter (fun p => !p.1)).map Prod.snd = calls := by
  induction calls with
  | nil => rfl
  | cons c rest ih =>
      cases hm : m c.mCallNo with
      | none => simp [rewritePass, rewriteStep, hm, ih]
      | some b => simp [rewritePass, rewriteStep, hm, ih]

/-- C4: the flattened liveness map is a fold of insertions over every
thread and every (buffer id, ordinal) entry; when the same ordinal occurs
in several entries the last-inserted one wins, and the rewriter then emits
exactly one deletion record for that ordinal, carrying the last-inserted
buffer id. -/
theorem flatten_last_write_wins (lastUse : List (Int × List (Int × Int)))
    (r : CallTM) (pre post : List (Int × Int)) (b : Int)
    (hsplit : entriesOf lastUse = pre ++ (b, r.mCallNo) :: post)
    (hpost : ∀ q ∈ post, q.2 ≠ r.mCallNo) :
    flattenLastUse lastUse r.mCallNo = some b ∧
    rewriteStep (flattenLastUse lastUse) r =
      [(false, r), (true, deletionCall b r.mTid)] := by
  have hlook : flattenLastUse lastUse r.mCallNo = some b := by
    unfold flattenLastUse
    rw [flatten_foldl_entries, hsplit]
    simp only [List.foldl_append, List.foldl_cons, if_pos rfl]
    exact foldl_pick_no_match post r.mCallNo _ hpost
  refine ⟨hlook, ?_⟩
  simp only [rewriteStep, hlook]

/-- Witness for C4, the overwrite-collision example of the spec: ordinal 3
maps to buffer 7 on thread 0 and to buffer 9 on thread 1; the flattened map
keeps the last write (buffer 9) and the rewriter emits a single deletion
for buffer 9. -/
theorem flatten_last_write_wins_witness :
    flattenLastUse [((0 : Int), [((7 : Int), (3 : Int))]), (1, [(9, 3)])] 3 = some 9 ∧
    rewriteStep (flattenLastUse [((0 : Int), [((7 : Int), (3 : Int))]), (1, [(9, 3)])])
        (CallTM.mk "glDrawArrays" 3 0 []) =
      [(false, CallTM.mk "glDrawArrays" 3 0 []), (true, deletionCall 9 0)] :=
  flatten_last_write_wins [((0 : Int), [((7 : Int), (3 : Int))]), (1, [(9, 3)])]
    (CallTM.mk "glDrawArrays" 3 0 []) [(7, 3)] [] 9 (by decide) (by decide)

/-- C5: every synthetic deletion in the rewriter output carries the thread
id of the record that triggered it: any `true`-tagged element of the
output comes from some source record whose ordinal is in the map, and is
the deletion record built with that record's thread id. -/
theorem synthetic_inherits_trigger_tid (m : Int → Option Int) :
    ∀ (calls : List CallTM) (p : Bool × CallTM),
    p ∈ rewritePass m calls → p.1 = true →
    ∃ r ∈ calls, ∃ b, m r.mCallNo = some b ∧
      p.2 = deletionCall b r.mTid ∧ p.2.mTid = r.mTid
  | [], p, hp, _ => absurd hp (List.not_mem_nil p)
  | c :: rest, p, hp, hs => by
      rw [rewritePass] at hp
      rcases List.mem_append.mp hp with h1 | h2
      · rw [rewriteStep] at h1
        rcases List.mem_cons.mp h1 with he | htail
        · rw [he] at hs
          cases hs
        · cases hm : m c.mCallNo with
          | none =>
              rw [hm] at htail
              exact absurd htail (List.not_mem_nil p)
          | some b =>
              rw [hm] at htail
              have hpe : p = (true, deletionCall b c.mTid) :=
                List.mem_singleton.mp htail
              refine ⟨c, List.mem_cons_self _ _, b, hm, ?_, ?_⟩
              · rw [hpe]
              · rw [hpe]
                rfl
      · rcases synthetic_inherits_trigger_tid m rest p h2 hs with
          ⟨r, hr, b, hb, hp1, hp2⟩
        exact ⟨r, List.mem_cons_of_mem _ hr, b, hb, hp1, hp2⟩

/-- Witness for C5: in a one-record stream on thread 5 whose ordinal is
mapped to buffer 7, the synthetic element of the output inherits thread 5. -/
theorem synthetic_inherits_trigger_tid_witness :
    ∃ r ∈ [CallTM.mk "glDrawArrays" 3 5 []], ∃ b,
      (fun k => if k = (3 : Int) then some 7 else none) r.mCallNo = some b ∧
      ((true, deletionCall 7 5) : Bool × CallTM).2 = deletionCall b r.mTid ∧
      ((true, deletionCall 7 5) : Bool × CallTM).2.mTid = r.mTid :=
  synthetic_inherits_trigger_tid (fun k => if k = (3 : Int) then some 7 else none)
    [CallTM.mk "glDrawArrays" 3 5 []] (true, deletionCall 7 5) (by decide) rfl

/-- The capacity of the static staging buffer of `writeout` (line 46):
150*1024*1024 bytes. -/
def WRITE_BUF_LEN : Nat := 150 * 1024 * 1024

/-- Observable outcome of one `writeout` invocation: how many bytes were
serialized and handed to `OutFile::Write`, and whether an overflow of the
staging buffer was reported. -/
structure WriteoutResult where
  bytesWritten : Nat
  overflowReported : Bool
deriving DecidableEq

/-- Embedding of `writeout` (lines 44-51): the record is serialized into
the fixed static `buffer` of `WRITE_BUF_LEN` bytes and `dest - buffer`
bytes are written.  The function contains no comparison of the serialized
length against `WRITE_BUF_LEN` and no error path, so no overflow is ever
reported, whatever the serialized length (the serializer itself lives in
`common/trace_model` and is abstracted as `serializedLen`). -/
def writeout (serializedLen : CallTM → Nat) (call : CallTM) : WriteoutResult :=
  { bytesWritten := serializedLen call, overflowReported := false }

/-- C3 (evaluation at the failing input): for a record whose serialized
form is one byte larger than the staging buffer, `writeout` hands the full
oversized length to the write with no overflow reported — the required
detected, reported, fatal `SerializationOverflow` condition does not exist
in the code. -/
theorem writeout_no_overflow_detection :
    WRITE_BUF_LEN < 150 * 1024 * 1024 + 1 ∧
    (writeout (fun _ => 150 * 1024 * 1024 + 1)
        (CallTM.mk "glVertexAttribPointer" 1 0 [])).bytesWritten =
      150 * 1024 * 1024 + 1 ∧
    (writeout (fun _ => 150 * 1024 * 1024 + 1)
        (CallTM.mk "glVertexAttribPointer" 1 0 [])).overflowReported = false :=
  ⟨by norm_num [WRITE_BUF_LEN], rfl, rfl⟩

/-- A configuration applied to a `ParseInterface` before `open`: which
value, if any, was passed to `setQuickMode` and to `setScreenshots`
(`none` means the setter was never called). -/
structure SourceConfig where
  quickMode : Option Bool
  screenshots : Option Bool
deriving DecidableEq

/-- Source setup of the first (analyzer) pass, lines 92-94:
`setQuickMode(true)` and `setScreenshots(false)` before `open`. -/
def firstPassConfig : SourceConfig :=
  { quickMode := some true, screenshots := some false }

/-- Source setup of the second (rewriter) pass, line 122: a fresh
`ParseInterface` is opened with neither setter called. -/
def secondPassConfig : SourceConfig :=
  { quickMode := none, screenshots := none }

/-- One conversion-history entry of a trace header. -/
structure ConversionEntry where
  operation : String
  source : String
  info : List (String × String)
deriving DecidableEq

/-- A trace header: the original fields, carried opaquely, plus the
conversion-history list. -/
structure TraceHeader where
  base : List (String × String)
  conversions : List ConversionEntry
deriving DecidableEq

/-- Modelled from the spec: `addConversionEntry` (defined in tool/utils,
outside the analysed sources) appends exactly one conversion-history entry
carrying the operation name, the source file name and the given info to
the header, leaving everything else unchanged. -/
def addConversionEntry (h : TraceHeader) (op src : String)
    (info : List (String × String)) : TraceHeader :=
  { h with conversions := h.conversions ++ [ConversionEntry.mk op src info] }

/-- One event observed by the output file: the header write
(`WriteHeader`, carrying the serialized bytes and the byte length recorded
in `mHeader.jsonLength`, lines 113-114), or the write of one record
(tagged `true` when it is the injected synthetic deletion). -/
inductive SinkEvent where
  | writeHeader (bytes : String) (len : Nat)
  | write (synthetic : Bool) (c : CallTM)
deriving DecidableEq

def isHeaderWrite : SinkEvent → Bool
  | SinkEvent.writeHeader _ _ => true
  | SinkEvent.write _ _ => false

def isSyntheticWrite : SinkEvent → Bool
  | SinkEvent.writeHeader _ _ => false
  | SinkEvent.write s _ => s

/-- One line printed to standard output by the tool. -/
inductive StdOutLine where
  | help
  | version
  | threadReport (tid : Int) (pairs : Nat)
  | injectedReport (n : Nat)
deriving DecidableEq

/-- The observable result of one run of `main`: process exit code, lines
printed to stdout, messages printed to stderr, events seen by the output
file, and the configuration of every source open attempted, in order. -/
structure MainResult where
  exitCode : Nat
  stdout : List StdOutLine
  stderr : List String
  sink : List SinkEvent
  sourceOpens : List SourceConfig
deriving DecidableEq

/-- The environment of one run of `main`: the command-line arguments
(`argv[1..]`), the success of each of the three file opens, and the
content of the source trace (header, per-thread last-use structure
harvested by pass 1, and the record sequence delivered by pass 2).
`jsonWrite` abstracts `Json::FastWriter().write`. -/
structure ToolEnv where
  args : List String
  openSourceFirst : Bool
  openDest : Bool
  openSourceSecond : Bool
  srcHeader : TraceHeader
  jsonWrite : TraceHeader → String
  lastUse : List (Int × List (Int × Int))
  calls : List CallTM

/-- The character `arg[0]` tested at line 60; for the empty string,
`std::string::operator[]` at index `size()` yields the null character. -/
def firstChar (s : String) : Char := s.toList.headD (Char.ofNat 0)

/-- Outcome of the option loop at lines 55-84. -/
inductive ParsedArgs where
  | helpExit
  | versionExit
  | unknownExit (arg : String)
  | ok (debugFlag : Bool) (positionals : List String)
deriving DecidableEq

/-- Embedding of the option loop (lines 55-84): arguments are scanned in
order; the loop stops at the first argument whose first character is not
a dash, leaving it and everything after it as positionals; `-h` prints
help and exits 1, `-d` sets the debug flag and continues, `-v` prints the
version and exits 0, and any other dash-argument is an unknown option. -/
def parseArgs (dbg : Bool) : List String → ParsedArgs
  | [] => ParsedArgs.ok dbg []
  | a :: rest =>
    if firstChar a = '-' then
      if a = "-h" then ParsedArgs.helpExit
      else if a = "-d" then parseArgs true rest
      else if a = "-v" then ParsedArgs.versionExit
      else ParsedArgs.unknownExit a
    else ParsedArgs.ok dbg (a :: rest)

/-- The header written to the sink (lines 108-114): the source header plus
the one conversion entry added by `addConversionEntry(header,
"inject_client_side_delete", source_trace_filename, info)` with empty
info. -/
def augmentedHeader (env : ToolEnv) (src : String) : TraceHeader :=
  addConversionEntry env.srcHeader "inject_client_side_delete" src []

/-- The single header-write event: the augmented header serialized once by
the JSON writer, with its byte length recorded alongside. -/
def headerEvent (env : ToolEnv) (src : String) : SinkEvent :=
  SinkEvent.writeHeader (env.jsonWrite (augmentedHeader env src))
    (env.jsonWrite (augmentedHeader env src)).length

/-- Embedding of `main` (lines 53-156): parse options; with fewer than
two positionals print help and exit 1; open the pass-1 source in quick
mode with screenshots disabled, then the destination, failing with exit 1
and a message naming the path if either open fails; write the augmented
header; drain pass 1; reopen the source with default settings (exit 1
with a message naming the path on failure); flatten the last-use
structure, printing one report line per thread; run the rewriter loop;
print the injected-deletion count and exit 0. -/
def runMain (env : ToolEnv) : MainResult :=
  match parseArgs false env.args with
  | ParsedArgs.helpExit =>
      { exitCode := 1, stdout := [StdOutLine.help], stderr := [],
        sink := [], sourceOpens := [] }
  | ParsedArgs.versionExit =>
      { exitCode := 0, stdout := [StdOutLine.version], stderr := [],
        sink := [], sourceOpens := [] }
  | ParsedArgs.unknownExit a =>
      { exitCode := 1, stdout := [StdOutLine.help],
        stderr := ["Error: Unknown option " ++ a],
        sink := [], sourceOpens := [] }
  | ParsedArgs.ok _ positionals =>
    match positionals with
    | src :: dst :: _ =>
      if env.openSourceFirst then
        if env.openDest then
          if env.openSourceSecond then
            { exitCode := 0,
              stdout :=
                (env.lastUse.map (fun t => StdOutLine.threadReport t.1 t.2.length)) ++
                  [StdOutLine.injectedReport
                    (injectedTotal (flattenLastUse env.lastUse) env.calls)],
              stderr := [],
              sink := headerEvent env src ::
                (rewritePass (flattenLastUse env.lastUse) env.calls).map
                  (fun p => SinkEvent.write p.1 p.2),
              sourceOpens := [firstPassConfig, secondPassConfig] }
          else
            { exitCode := 1, stdout := [],
              stderr := ["Failed to open for reading again: " ++ src],
              sink := [headerEvent env src],
              sourceOpens := [firstPassConfig, secondPassConfig] }
        else
          { exitCode := 1, stdout := [],
            stderr := ["Failed to open for writing: " ++ dst],
            sink := [], sourceOpens := [firstPassConfig] }
      else
        { exitCode := 1, stdout := [],
          stderr := ["Failed to open for reading: " ++ src],
          sink := [], sourceOpens := [firstPassConfig] }
    | _ =>
      { exitCode := 1, stdout := [StdOutLine.help], stderr := [],
        sink := [], sourceOpens := [] }

theorem parseArgs_cons_eq (d : Bool) (a : String) (rest : List String) :
    parseArgs d (a :: rest) =
      if firstChar a = '-' then
        if a = "-h" then ParsedArgs.helpExit
        else if a = "-d" then parseArgs true rest
        else if a = "-v" then ParsedArgs.versionExit
        else ParsedArgs.unknownExit a
      else ParsedArgs.ok d (a :: rest) := rfl

theorem parseArgs_dashd_pre : ∀ (pre : List String) (d : Bool) (l : List String),
    (∀ p ∈ pre, p = "-d") →
    parseArgs d (pre ++ l) = parseArgs (d || !pre.isEmpty) l
  | [], d, l, _ => by simp
  | p :: t, d, l, h => by
      have hp : p = "-d" := h p (List.mem_cons_self _ _)
      subst hp
      rw [List.cons_append, parseArgs_cons_eq, if_pos (by decide),
        if_neg (by decide), if_pos rfl]
      rw [parseArgs_dashd_pre t true l (fun q hq => h q (List.mem_cons_of_mem _ hq))]
      simp

theorem runMain_helpExit (env : ToolEnv)
    (h : parseArgs false env.args = ParsedArgs.helpExit) :
    runMain env =
      { exitCode := 1, stdout := [StdOutLine.help], stderr := [],
        sink := [], sourceOpens := [] } := by
  simp only [runMain, h]

theorem runMain_versionExit (env : ToolEnv)
    (h : parseArgs false env.args = ParsedArgs.versionExit) :
    runMain env =
      { exitCode := 0, stdout := [StdOutLine.version], stderr := [],
        sink := [], sourceOpens := [] } := by
  simp only [runMain, h]

theorem runMain_unknownExit (env : ToolEnv) (a : String)
    (h : parseArgs false env.args = ParsedArgs.unknownExit a) :
    runMain env =
      { exitCode := 1, stdout := [StdOutLine.help],
        stderr := ["Error: Unknown option " ++ a], sink := [],
        sourceOpens := [] } := by
  simp only [runMain, h]

theorem runMain_tooFewArgs (env : ToolEnv) (d : Bool) (positionals : List String)
    (h : parseArgs false env.args = ParsedArgs.ok d positionals)
    (hlen : positionals.length < 2) :
    runMain env =
      { exitCode := 1, stdout := [StdOutLine.help], stderr := [],
        sink := [], sourceOpens := [] } := by
  match positionals, hlen with
  | [], _ => simp only [runMain, h]
  | [x], _ => simp only [runMain, h]

theorem runMain_srcOpenFail (env : ToolEnv) (d : Bool) (src dst : String)
    (more : List String)
    (h : parseArgs false env.args = ParsedArgs.ok d (src :: dst :: more))
    (h1 : env.openSourceFirst = false) :
    runMain env =
      { exitCode := 1, stdout := [],
        stderr := ["Failed to open for reading: " ++ src],
        sink := [], sourceOpens := [firstPassConfig] } := by
  simp [runMain, h, h1]

theorem runMain_destOpenFail (env : ToolEnv) (d : Bool) (src dst : String)
    (more : List String)
    (h : parseArgs false env.args = ParsedArgs.ok d (src :: dst :: more))
    (h1 : env.openSourceFirst = true) (h2 : env.openDest = false) :
    runMain env =
      { exitCode := 1, stdout := [],
        stderr := ["Failed to open for writing: " ++ dst],
        sink := [], sourceOpens := [firstPassConfig] } := by
  simp [runMain, h, h1, h2]

theorem runMain_reopenFail (env : ToolEnv) (d : Bool) (src dst : String)
    (more : List String)
    (h : parseArgs false env.args = ParsedArgs.ok d (src :: dst :: more))
    (h1 : env.openSourceFirst = true) (h2 : env.openDest = true)
    (h3 : env.openSourceSecond = false) :
    runMain env =
      { exitCode := 1, stdout := [],
        stderr := ["Failed to open for reading again: " ++ src],
        sink := [headerEvent env src],
        sourceOpens := [firstPassConfig, secondPassConfig] } := by
  simp [runMain, h, h1, h2, h3]

theorem runMain_success (env : ToolEnv) (d : Bool) (src dst : String)
    (more : List String)
    (h : parseArgs false env.args = ParsedArgs.ok d (src :: dst :: more))
    (h1 : env.openSourceFirst = true) (h2 : env.openDest = true)
    (h3 : env.openSourceSecond = true) :
    runMain env =
      { exitCode := 0,
        stdout :=
          (env.lastUse.map (fun t => StdOutLine.threadReport t.1 t.2.length)) ++
            [StdOutLine.injectedReport
              (injectedTotal (flattenLastUse env.lastUse) env.calls)],
        stderr := [],
        sink := headerEvent env src ::
          (rewritePass (flattenLastUse env.lastUse) env.calls).map
            (fun p => SinkEvent.write p.1 p.2),
        sourceOpens := [firstPassConfig, secondPassConfig] } := by
  simp [runMain, h, h1, h2, h3]

theorem countP_header_recordWrites (l : List (Bool × CallTM)) :
    (l.map (fun p => SinkEvent.write p.1 p.2)).countP isHeaderWrite = 0 := by
  induction l with
  | nil => rfl
  | cons p t ih => simp [List.countP_cons, isHeaderWrite, ih]

theorem mem_recordWrites_not_header (l : List (Bool × CallTM)) (e : SinkEvent)
    (he : e ∈ l.map (fun p => SinkEvent.write p.1 p.2)) :
    isHeaderWrite e = false := by
  rcases List.mem_map.mp he with ⟨p, _, hpe⟩
  rw [← hpe]
  rfl

/-- C6: on every run that reaches the writing stage, the very first sink
event — before any record write — is the single header write; the header
written is the source header with exactly one appended conversion entry
(operation inject_client_side_delete, the source filename, empty info),
serialized once with its byte length recorded alongside; exactly one
header write ever happens and no later sink event is a header write. -/
theorem header_provenance_written_once
    (env : ToolEnv) (d : Bool) (src dst : String) (more : List String)
    (hargs : parseArgs false env.args = ParsedArgs.ok d (src :: dst :: more))
    (h1 : env.openSourceFirst = true) (h2 : env.openDest = true) :
    (runMain env).sink.head? = some (headerEvent env src) ∧
    headerEvent env src = SinkEvent.writeHeader
      (env.jsonWrite (augmentedHeader env src))
      (env.jsonWrite (augmentedHeader env src)).length ∧
    (augmentedHeader env src).base = env.srcHeader.base ∧
    (augmentedHeader env src).conversions = env.srcHeader.conversions ++
      [ConversionEntry.mk "inject_client_side_delete" src []] ∧
    (runMain env).sink.countP isHeaderWrite = 1 ∧
    (∀ e ∈ (runMain env).sink.tail, isHeaderWrite e = false) := by
  cases h3 : env.openSourceSecond with
  | false =>
      rw [runMain_reopenFail env d src dst more hargs h1 h2 h3]
      refine ⟨rfl, rfl, rfl, rfl, rfl, ?_⟩
      intro e he
      cases he
  | true =>
      rw [runMain_success env d src dst more hargs h1 h2 h3]
      refine ⟨rfl, rfl, rfl, rfl, ?_, ?_⟩
      · simp [List.countP_cons, countP_header_recordWrites, isHeaderWrite,
          headerEvent]
      · intro e he
        exact mem_recordWrites_not_header _ e he

/-- A sample run environment used by the concrete witnesses: two
positional arguments, all opens succeeding, one client-side buffer (id 7)
whose last use is ordinal 3 on thread 0, and a two-record trace. -/
def sampleEnv : ToolEnv :=
  { args := ["a.pat", "b.pat"], openSourceFirst := true, openDest := true,
    openSourceSecond := true,
    srcHeader := TraceHeader.mk [("glesVersion", "2")] [],
    jsonWrite := fun h =>
      String.intercalate "," (h.conversions.map ConversionEntry.operation),
    lastUse := [(0, [(7, 3)])],
    calls := [CallTM.mk "glDrawArrays" 3 0 [], CallTM.mk "glFlush" 4 0 []] }

/-- Witness for C6 on the sample environment. -/
theorem header_provenance_written_once_witness :
    (runMain sampleEnv).sink.head? = some (headerEvent sampleEnv "a.pat") ∧
    headerEvent sampleEnv "a.pat" = SinkEvent.writeHeader
      (sampleEnv.jsonWrite (augmentedHeader sampleEnv "a.pat"))
      (sampleEnv.jsonWrite (augmentedHeader sampleEnv "a.pat")).length ∧
    (augmentedHeader sampleEnv "a.pat").base = sampleEnv.srcHeader.base ∧
    (augmentedHeader sampleEnv "a.pat").conversions =
      sampleEnv.srcHeader.conversions ++
        [ConversionEntry.mk "inject_client_side_delete" "a.pat" []] ∧
    (runMain sampleEnv).sink.countP isHeaderWrite = 1 ∧
    (∀ e ∈ (runMain sampleEnv).sink.tail, isHeaderWrite e = false) :=
  header_provenance_written_once sampleEnv false "a.pat" "b.pat" []
    (by decide) rfl rfl

/-- C7: if the first source open fails, the destination open fails, or the
reopening of the source for the second pass fails, the tool prints an
error naming the failing path to standard error and exits with code 1,
writing nothing further to the output file (in the reopen case the already
written header is the only sink event). -/
theorem open_failures_exit_one
    (envA : ToolEnv) (dA : Bool) (srcA dstA : String) (moreA : List String)
    (hA : parseArgs false envA.args = ParsedArgs.ok dA (srcA :: dstA :: moreA))
    (hA1 : envA.openSourceFirst = false)
    (envB : ToolEnv) (dB : Bool) (srcB dstB : String) (moreB : List String)
    (hB : parseArgs false envB.args = ParsedArgs.ok dB (srcB :: dstB :: moreB))
    (hB1 : envB.openSourceFirst = true) (hB2 : envB.openDest = false)
    (envC : ToolEnv) (dC : Bool) (srcC dstC : String) (moreC : List String)
    (hC : parseArgs false envC.args = ParsedArgs.ok dC (srcC :: dstC :: moreC))
    (hC1 : envC.openSourceFirst = true) (hC2 : envC.openDest = true)
    (hC3 : envC.openSourceSecond = false) :
    (runMain envA).exitCode = 1 ∧
    (runMain envA).stderr = ["Failed to open for reading: " ++ srcA] ∧
    (runMain envA).sink = [] ∧
    (runMain envB).exitCode = 1 ∧
    (runMain envB).stderr = ["Failed to open for writing: " ++ dstB] ∧
    (runMain envB).sink = [] ∧
    (runMain envC).exitCode = 1 ∧
    (runMain envC).stderr = ["Failed to open for reading again: " ++ srcC] ∧
    (runMain envC).sink = [headerEvent envC srcC] := by
  rw [runMain_srcOpenFail envA dA srcA dstA moreA hA hA1,
    runMain_destOpenFail envB dB srcB dstB moreB hB hB1 hB2,
    runMain_reopenFail envC dC srcC dstC moreC hC hC1 hC2 hC3]
  exact ⟨rfl, rfl, rfl, rfl, rfl, rfl, rfl, rfl, rfl⟩

def envC7a : ToolEnv := { sampleEnv with openSourceFirst := false }

def envC7b : ToolEnv := { sampleEnv with openDest := false }

def envC7c : ToolEnv := { sampleEnv with openSourceSecond := false }

/-- Witness for C7: the three failing-open environments on the sample
trace. -/
theorem open_failures_exit_one_witness :
    (runMain envC7a).exitCode = 1 ∧
    (runMain envC7a).stderr = ["Failed to open for reading: " ++ "a.pat"] ∧
    (runMain envC7a).sink = [] ∧
    (runMain envC7b).exitCode = 1 ∧
    (runMain envC7b).stderr = ["Failed to open for writing: " ++ "b.pat"] ∧
    (runMain envC7b).sink = [] ∧
    (runMain envC7c).exitCode = 1 ∧
    (runMain envC7c).stderr = ["Failed to open for reading again: " ++ "a.pat"] ∧
    (runMain envC7c).sink = [headerEvent envC7c "a.pat"] :=
  open_failures_exit_one
    envC7a false "a.pat" "b.pat" [] (by decide) rfl
    envC7b false "a.pat" "b.pat" [] (by decide) rfl rfl
    envC7c false "a.pat" "b.pat" [] (by decide) rfl rfl rfl

/-- C8: the command-line surface: a `-h` flag (after any number of `-d`
flags) prints help and exits 1; a `-v` flag prints the version and exits
0; an unrecognized flag prints an error naming it plus the help text and
exits 1; fewer than two positional arguments prints help and exits 1; a
normally completing run prints the total count of injected deletions and
exits 0. -/
theorem cli_surface_behavior
    (envH : ToolEnv) (preH restH : List String)
    (hpreH : ∀ p ∈ preH, p = "-d") (hH : envH.args = preH ++ "-h" :: restH)
    (envV : ToolEnv) (preV restV : List String)
    (hpreV : ∀ p ∈ preV, p = "-d") (hV : envV.args = preV ++ "-v" :: restV)
    (envU : ToolEnv) (preU restU : List String) (u : String)
    (hpreU : ∀ p ∈ preU, p = "-d") (hU : envU.args = preU ++ u :: restU)
    (hu1 : firstChar u = '-') (hu2 : u ≠ "-h") (hu3 : u ≠ "-d") (hu4 : u ≠ "-v")
    (envM : ToolEnv) (dM : Bool) (restM : List String)
    (hM : parseArgs false envM.args = ParsedArgs.ok dM restM)
    (hMlen : restM.length < 2)
    (envN : ToolEnv) (dN : Bool) (srcN dstN : String) (moreN : List String)
    (hN : parseArgs false envN.args = ParsedArgs.ok dN (srcN :: dstN :: moreN))
    (hN1 : envN.openSourceFirst = true) (hN2 : envN.openDest = true)
    (hN3 : envN.openSourceSecond = true) :
    (runMain envH).exitCode = 1 ∧ (runMain envH).stdout = [StdOutLine.help] ∧
    (runMain envV).exitCode = 0 ∧ (runMain envV).stdout = [StdOutLine.version] ∧
    (runMain envU).exitCode = 1 ∧
    (runMain envU).stderr = ["Error: Unknown option " ++ u] ∧
    (runMain envU).stdout = [StdOutLine.help] ∧
    (runMain envM).exitCode = 1 ∧ (runMain envM).stdout = [StdOutLine.help] ∧
    (runMain envN).exitCode = 0 ∧
    (runMain envN).stdout =
      (envN.lastUse.map (fun t => StdOutLine.threadReport t.1 t.2.length)) ++
        [StdOutLine.injectedReport
          (injectedTotal (flattenLastUse envN.lastUse) envN.calls)] := by
  have ph : parseArgs false envH.args = ParsedArgs.helpExit := by
    rw [hH, parseArgs_dashd_pre preH false _ hpreH, parseArgs_cons_eq,
      if_pos (by decide), if_pos rfl]
  have pv : parseArgs false envV.args = ParsedArgs.versionExit := by
    rw [hV, parseArgs_dashd_pre preV false _ hpreV, parseArgs_cons_eq,
      if_pos (by decide), if_neg (by decide), if_neg (by decide), if_pos rfl]
  have pu : parseArgs false envU.args = ParsedArgs.unknownExit u := by
    rw [hU, parseArgs_dashd_pre preU false _ hpreU, parseArgs_cons_eq,
      if_pos hu1, if_neg hu2, if_neg hu3, if_neg hu4]
  rw [runMain_helpExit envH ph, runMain_versionExit envV pv,
    runMain_unknownExit envU u pu, runMain_tooFewArgs envM dM restM hM hMlen,
    runMain_success envN dN srcN dstN moreN hN hN1 hN2 hN3]
  exact ⟨rfl, rfl, rfl, rfl, rfl, rfl, rfl, rfl, rfl, rfl, rfl⟩

def envC8h : ToolEnv := { sampleEnv with args := ["-d", "-h"] }

def envC8v : ToolEnv := { sampleEnv with args := ["-v"] }

def envC8u : ToolEnv := { sampleEnv with args := ["-x", "a.pat", "b.pat"] }

def envC8m : ToolEnv := { sampleEnv with args := ["only.pat"] }

/-- Witness for C8: help, version, unknown-flag, missing-argument and
normal-completion runs on concrete argument vectors. -/
theorem cli_surface_behavior_witness :
    (runMain envC8h).exitCode = 1 ∧ (runMain envC8h).stdout = [StdOutLine.help] ∧
    (runMain envC8v).exitCode = 0 ∧ (runMain envC8v).stdout = [StdOutLine.version] ∧
    (runMain envC8u).exitCode = 1 ∧
    (runMain envC8u).stderr = ["Error: Unknown option " ++ "-x"] ∧
    (runMain envC8u).stdout = [StdOutLine.help] ∧
    (runMain envC8m).exitCode = 1 ∧ (runMain envC8m).stdout = [StdOutLine.help] ∧
    (runMain sampleEnv).exitCode = 0 ∧
    (runMain sampleEnv).stdout =
      (sampleEnv.lastUse.map (fun t => StdOutLine.threadReport t.1 t.2.length)) ++
        [StdOutLine.injectedReport
          (injectedTotal (flattenLastUse sampleEnv.lastUse) sampleEnv.calls)] :=
  cli_surface_behavior
    envC8h ["-d"] [] (by decide) rfl
    envC8v [] [] (by decide) rfl
    envC8u [] ["a.pat", "b.pat"] "-x" (by decide) rfl (by decide) (by decide)
      (by decide) (by decide)
    envC8m false ["only.pat"] (by decide) (by decide)
    sampleEnv false "a.pat" "b.pat" [] (by decide) rfl rfl rfl

/-- C9: option parsing stops at the first argument whose first character
is not a dash: that argument and its successor become the source and
destination paths, and a dash-leading argument after the first positional
is accepted as a path (here visible in the open-failure messages naming
it), never rejected as an unknown option. -/
theorem option_parsing_stops_at_positional
    (src dst : String) (more : List String)
    (hsrc : firstChar src ≠ '-') (hdst : firstChar dst = '-')
    (env1 : ToolEnv) (h1args : env1.args = src :: dst :: more)
    (h1o : env1.openSourceFirst = false)
    (env2 : ToolEnv) (h2args : env2.args = src :: dst :: more)
    (h2o1 : env2.openSourceFirst = true) (h2o2 : env2.openDest = false) :
    parseArgs false (src :: dst :: more) = ParsedArgs.ok false (src :: dst :: more) ∧
    (runMain env1).exitCode = 1 ∧
    (runMain env1).stderr = ["Failed to open for reading: " ++ src] ∧
    (runMain env2).exitCode = 1 ∧
    (runMain env2).stderr = ["Failed to open for writing: " ++ dst] := by
  have pp : parseArgs false (src :: dst :: more) =
      ParsedArgs.ok false (src :: dst :: more) := by
    rw [parseArgs_cons_eq, if_neg hsrc]
  have p1 : parseArgs false env1.args = ParsedArgs.ok false (src :: dst :: more) := by
    rw [h1args]
    exact pp
  have p2 : parseArgs false env2.args = ParsedArgs.ok false (src :: dst :: more) := by
    rw [h2args]
    exact pp
  rw [runMain_srcOpenFail env1 false src dst more p1 h1o,
    runMain_destOpenFail env2 false src dst more p2 h2o1 h2o2]
  exact ⟨pp, rfl, rfl, rfl, rfl⟩

def envC9a : ToolEnv :=
  { sampleEnv with args := ["trace.pat", "-h"], openSourceFirst := false }

def envC9b : ToolEnv :=
  { sampleEnv with args := ["trace.pat", "-h"], openDest := false }

/-- Witness for C9: with arguments `trace.pat -h`, the `-h` is used as the
destination path (the failing-open message names it), not treated as the
help flag. -/
theorem option_parsing_stops_at_positional_witness :
    parseArgs false ["trace.pat", "-h"] =
      ParsedArgs.ok false ["trace.pat", "-h"] ∧
    (runMain envC9a).exitCode = 1 ∧
    (runMain envC9a).stderr = ["Failed to open for reading: " ++ "trace.pat"] ∧
    (runMain envC9b).exitCode = 1 ∧
    (runMain envC9b).stderr = ["Failed to open for writing: " ++ "-h"] :=
  option_parsing_stops_at_positional "trace.pat" "-h" [] (by decide) (by decide)
    envC9a rfl rfl envC9b rfl rfl rfl

/-- C10: only the first (analyzer) pass opens the source with
`setQuickMode(true)` and `setScreenshots(false)`; the second (rewriter)
pass reopens it with neither setter called, i.e. in the default
full-decoding mode. -/
theorem pass_modes_quick_then_full
    (env : ToolEnv) (d : Bool) (src dst : String) (more : List String)
    (hargs : parseArgs false env.args = ParsedArgs.ok d (src :: dst :: more))
    (h1 : env.openSourceFirst = true) (h2 : env.openDest = true) :
    (runMain env).sourceOpens = [firstPassConfig, secondPassConfig] ∧
    firstPassConfig.quickMode = some true ∧
    firstPassConfig.screenshots = some false ∧
    secondPassConfig.quickMode = none ∧
    secondPassConfig.screenshots = none := by
  cases h3 : env.openSourceSecond with
  | false =>
      rw [runMain_reopenFail env d src dst more hargs h1 h2 h3]
      exact ⟨rfl, rfl, rfl, rfl, rfl⟩
  | true =>
      rw [runMain_success env d src dst more hargs h1 h2 h3]
      exact ⟨rfl, rfl, rfl, rfl, rfl⟩

/-- Witness for C10 on the sample environment. -/
theorem pass_modes_quick_then_full_witness :
    (runMain sampleEnv).sourceOpens = [firstPassConfig, secondPassConfig] ∧
    firstPassConfig.quickMode = some true ∧
    firstPassConfig.screenshots = some false ∧
    secondPassConfig.quickMode = none ∧
    secondPassConfig.screenshots = none :=
  pass_modes_quick_then_full sampleEnv false "a.pat" "b.pat" []
    (by decide) rfl rfl
